import Mathlib

/-!
Verification of the ev3go/ev3 device-resolution and LCD frame-buffer code.

The development shallowly embeds, from the Go sources:
  * `chomp`, `deviceIDFor` (package ev3dev, ev3dev.go) — the sysfs device
    scan that resolves a (port, driver) request to a numeric device id;
  * `NewRGBAWith` (lcd.go) — construction of an RGBA pixel surface over a
    raw byte buffer;
  * the monochrome color model exercised by lcd_test.go.

Filesystem state is made explicit: a device-class root is the list of
directory entries returned by `Readdirnames`, each entry carrying the name
and the contents of its `address` and `driver_name` attribute files, where
`none` stands for a failing read of that file.
-/

set_option autoImplicit false

namespace Ev3

/-- Embedding of Go `chomp` (ev3dev.go): drop a single trailing newline
byte from the file content. Go indexes the last byte and would panic on
empty content; the model is the identity there, which no claim exercises. -/
def chomp (s : String) : String :=
  if s.data.getLast? = some (Char.ofNat 10) then String.mk s.data.dropLast else s

/-- Embedding of Go `strings.HasPrefix`, on the character-list view of the
string (equivalent to the byte view for valid UTF-8). -/
def hasPrefixStr (s pre : String) : Bool :=
  pre.data.isPrefixOf s.data

/-- Embedding of Go `strings.TrimPrefix`. -/
def trimPrefixStr (s pre : String) : String :=
  if pre.data.isPrefixOf s.data then String.mk (s.data.drop pre.data.length) else s

/-- Decimal digit accumulation used by `atoi`: fails on any non-digit. -/
def digitsVal : List Char → Nat → Option Nat
  | [], acc => some acc
  | c :: cs, acc =>
    if 48 ≤ c.toNat ∧ c.toNat ≤ 57 then digitsVal cs (acc * 10 + (c.toNat - 48)) else none

/-- Embedding of Go `strconv.Atoi`: an optional sign followed by at least
one decimal digit. Go's machine-int range overflow failure is not
modelled (arbitrary-precision `Int`); no claim depends on it. -/
def atoi (s : String) : Option Int :=
  match s.data with
  | [] => none
  | c :: cs =>
    if c = Char.ofNat 45 then
      if cs = [] then none else (digitsVal cs 0).map (fun n => -(n : Int))
    else if c = Char.ofNat 43 then
      if cs = [] then none else (digitsVal cs 0).map (fun n => (n : Int))
    else (digitsVal (c :: cs) 0).map (fun n => (n : Int))

/-- One subdirectory of a device-class root: its name and the contents of
its `address` and `driver_name` attribute files. `none` models a read
failure (`ioutil.ReadFile` returning an error) for that file. -/
structure DirEnt where
  name : String
  addr : Option String
  drv : Option String
deriving DecidableEq

/-- Embedding of the Go `DriverMismatch` error struct (ev3dev.go). -/
structure DriverMismatch where
  Want : String
  Have : String
deriving DecidableEq

/-- The error outcomes of the `deviceIDFor` scan, one constructor per
`return` site that produces an error in the Go source. -/
inductive DevError where
  | parseError (device : String) : DevError
  | readError (path : String) : DevError
  | driverMismatch (m : DriverMismatch) : DevError
  | portNotFound (driver port : String) : DevError
  | driverNotFound (driver : String) : DevError
deriving DecidableEq

/-- Embedding of Go `deviceIDFor` (ev3dev.go) after a successful
`os.Open`/`Readdirnames`: the loop over the listed entries, in listing
order, followed by the fall-through not-found returns. `typ` is the
device type prefix (`d.Type()` in Go). The Go result pair `(int, error)`
becomes `Int × Option DevError`; as in Go, a `driverMismatch` result
carries a valid id alongside the error. -/
def deviceIDFor (typ port driver : String) : List DirEnt → Int × Option DevError
  | [] =>
    if port = "" then (-1, some (DevError.driverNotFound driver))
    else (-1, some (DevError.portNotFound driver port))
  | d :: rest =>
    if hasPrefixStr d.name typ then
      match atoi (trimPrefixStr d.name typ) with
      | none => (-1, some (DevError.parseError d.name))
      | some id =>
        if port = "" then
          match d.drv with
          | none => (-1, some (DevError.readError (d.name ++ "/driver_name")))
          | some b =>
            if chomp b = driver then (id, none)
            else deviceIDFor typ port driver rest
        else
          match d.addr with
          | none => (-1, some (DevError.readError (d.name ++ "/address")))
          | some b =>
            if chomp b = port then
              match d.drv with
              | none => (-1, some (DevError.readError (d.name ++ "/driver_name")))
              | some b2 =>
                if chomp b2 = driver then (id, none)
                else (id, some (DevError.driverMismatch (DriverMismatch.mk driver b2)))
            else deviceIDFor typ port driver rest
    else deviceIDFor typ port driver rest

/-- A directory entry on which the Go loop body executes `continue`
(so the scan moves past it without returning): either its name lacks the
type prefix, or it parses and the relevant attribute file reads
successfully but fails the match for the current mode. -/
def continues (typ port driver : String) (d : DirEnt) : Prop :=
  hasPrefixStr d.name typ = false ∨
    (hasPrefixStr d.name typ = true ∧
      (atoi (trimPrefixStr d.name typ)).isSome = true ∧
      (port = "" → d.drv.isSome = true ∧ d.drv.map chomp ≠ some driver) ∧
      (port ≠ "" → d.addr.isSome = true ∧ d.addr.map chomp ≠ some port))

instance continuesDecidable (typ port driver : String) (d : DirEnt) :
    Decidable (continues typ port driver d) := by
  unfold continues; infer_instance

theorem deviceIDFor_cons_of_continues (typ port driver : String) (d : DirEnt)
    (rest : List DirEnt) (h : continues typ port driver d) :
    deviceIDFor typ port driver (d :: rest) = deviceIDFor typ port driver rest := by
  unfold continues at h
  rcases h with h | ⟨hp, hsome, hdrv, haddr⟩
  · simp [deviceIDFor, h]
  · obtain ⟨id, hid⟩ := Option.isSome_iff_exists.mp hsome
    by_cases hPort : port = ""
    · obtain ⟨hds, hdne⟩ := hdrv hPort
      obtain ⟨db, hdb⟩ := Option.isSome_iff_exists.mp hds
      have hdne2 : chomp db ≠ driver := by
        intro hc
        exact hdne (by rw [hdb]; simp [hc])
      subst hPort
      simp [deviceIDFor, hp, hid, hdb, hdne2]
    · obtain ⟨has2, hane⟩ := haddr hPort
      obtain ⟨ab, hab⟩ := Option.isSome_iff_exists.mp has2
      have hane2 : chomp ab ≠ port := by
        intro hc
        exact hane (by rw [hab]; simp [hc])
      simp [deviceIDFor, hp, hid, hPort, hab, hane2]

theorem deviceIDFor_append_of_continues (typ port driver : String) (pre rest : List DirEnt)
    (h : ∀ e ∈ pre, continues typ port driver e) :
    deviceIDFor typ port driver (pre ++ rest) = deviceIDFor typ port driver rest := by
  induction pre with
  | nil => rfl
  | cons d pre ih =>
    have hd : continues typ port driver d := h d (by simp)
    have ht : ∀ e ∈ pre, continues typ port driver e := fun e he => h e (by simp [he])
    rw [List.cons_append, deviceIDFor_cons_of_continues typ port driver d _ hd, ih ht]

/-- C1: for a device-class root whose prefix-matching subdirectories contain
exactly one directory whose chomped `address` content equals the non-empty
requested port, and whose chomped `driver_name` content equals the requested
driver, `deviceIDFor` returns that directory's parsed numeric id with no
error. Earlier entries are assumed well formed (they parse and their
`address` reads succeed), as the scan aborts otherwise. -/
theorem deviceIDFor_unique_port_match
    (typ port driver : String) (pre post : List DirEnt) (m : DirEnt)
    (id : Int) (ab db : String)
    (hport : port ≠ "")
    (hpre : ∀ e ∈ pre, continues typ port driver e)
    (hm1 : hasPrefixStr m.name typ = true)
    (hm2 : atoi (trimPrefixStr m.name typ) = some id)
    (hm3 : m.addr = some ab) (hm4 : chomp ab = port)
    (hm5 : m.drv = some db) (hm6 : chomp db = driver)
    (hpost : ∀ e ∈ post, hasPrefixStr e.name typ = true →
      ∀ ab2, e.addr = some ab2 → chomp ab2 ≠ port) :
    deviceIDFor typ port driver (pre ++ m :: post) = (id, none) := by
  rw [deviceIDFor_append_of_continues typ port driver pre _ hpre]
  simp [deviceIDFor, hm1, hm2, hm3, hm4, hm5, hm6, hport]

theorem deviceIDFor_unique_port_match_w :
    deviceIDFor "motor" "outA" "lego-ev3-m-motor"
      [DirEnt.mk "motor0" (some "outB\n") (some "x\n"),
       DirEnt.mk "foo1" none none,
       DirEnt.mk "motor3" (some "outA\n") (some "lego-ev3-m-motor\n")] = (3, none) :=
  deviceIDFor_unique_port_match "motor" "outA" "lego-ev3-m-motor"
    [DirEnt.mk "motor0" (some "outB\n") (some "x\n"), DirEnt.mk "foo1" none none] []
    (DirEnt.mk "motor3" (some "outA\n") (some "lego-ev3-m-motor\n")) 3 "outA\n"
    "lego-ev3-m-motor\n" (by decide) (by decide) (by decide) (by decide) rfl
    (by decide) rfl (by decide) (by decide)

/-- C2 (evaluation at the failing input): with a single directory `motor1`
whose `address` file holds the requested port and whose `driver_name` file
holds a different driver followed by the usual trailing newline,
`deviceIDFor` returns the id together with a `DriverMismatch` whose `Have`
field is the raw file content, newline included — not the chomped driver
name that every other reader in the package (and the comparison on the
preceding line) uses. -/
theorem deviceIDFor_mismatch_have_unchomped :
    deviceIDFor "motor" "outA" "want" [DirEnt.mk "motor1" (some "outA\n") (some "other\n")] =
      (1, some (DevError.driverMismatch (DriverMismatch.mk "want" "other\n"))) ∧
    chomp "other\n" = "other" ∧ "other\n" ≠ "other" := by
  refine ⟨by decide, by decide, by decide⟩

/-- C3: with an empty requested port, `deviceIDFor` returns the id of the
first prefix-matching directory, in listing order, whose chomped
`driver_name` content equals the requested driver, with no error; and when
no prefix-matching directory's driver matches (all candidates parsing and
reading cleanly), it returns id -1 with the driver-not-found error. -/
theorem deviceIDFor_empty_port_spec :
    (∀ (typ driver : String) (pre post : List DirEnt) (m : DirEnt) (id : Int) (db : String),
      (∀ e ∈ pre, continues typ "" driver e) →
      hasPrefixStr m.name typ = true →
      atoi (trimPrefixStr m.name typ) = some id →
      m.drv = some db → chomp db = driver →
      deviceIDFor typ "" driver (pre ++ m :: post) = (id, none)) ∧
    (∀ (typ driver : String) (devices : List DirEnt),
      (∀ e ∈ devices, continues typ "" driver e) →
      deviceIDFor typ "" driver devices = (-1, some (DevError.driverNotFound driver))) := by
  constructor
  · intro typ driver pre post m id db hpre hm1 hm2 hm3 hm4
    rw [deviceIDFor_append_of_continues typ "" driver pre _ hpre]
    simp [deviceIDFor, hm1, hm2, hm3, hm4]
  · intro typ driver devices h
    have h2 := deviceIDFor_append_of_continues typ "" driver devices [] h
    rw [List.append_nil] at h2
    rw [h2]
    rfl

theorem deviceIDFor_empty_port_spec_w :
    deviceIDFor "sensor" "" "lego-ev3-touch"
      [DirEnt.mk "sensor0" none (some "other\n"),
       DirEnt.mk "sensor2" none (some "lego-ev3-touch\n")] = (2, none) ∧
    deviceIDFor "sensor" "" "lego-ev3-touch"
      [DirEnt.mk "sensor0" none (some "other\n")] =
      (-1, some (DevError.driverNotFound "lego-ev3-touch")) :=
  ⟨deviceIDFor_empty_port_spec.1 "sensor" "lego-ev3-touch"
      [DirEnt.mk "sensor0" none (some "other\n")] []
      (DirEnt.mk "sensor2" none (some "lego-ev3-touch\n")) 2 "lego-ev3-touch\n"
      (by decide) (by decide) (by decide) rfl (by decide),
   deviceIDFor_empty_port_spec.2 "sensor" "lego-ev3-touch"
      [DirEnt.mk "sensor0" none (some "other\n")] (by decide)⟩

/-- C4: with a non-empty requested port, when no prefix-matching directory's
chomped `address` content equals the port (each candidate parsing and its
`address` read succeeding), `deviceIDFor` falls through the whole scan and
returns id -1 with the port-not-found error. -/
theorem deviceIDFor_port_absent
    (typ port driver : String) (devices : List DirEnt)
    (hport : port ≠ "")
    (h : ∀ e ∈ devices, continues typ port driver e) :
    deviceIDFor typ port driver devices = (-1, some (DevError.portNotFound driver port)) := by
  have h2 := deviceIDFor_append_of_continues typ port driver devices [] h
  rw [List.append_nil] at h2
  rw [h2]
  simp [deviceIDFor, hport]

theorem deviceIDFor_port_absent_w :
    deviceIDFor "motor" "outD" "lego-ev3-m-motor"
      [DirEnt.mk "motor0" (some "outB\n") (some "x\n"), DirEnt.mk "junk" none none] =
      (-1, some (DevError.portNotFound "lego-ev3-m-motor" "outD")) :=
  deviceIDFor_port_absent "motor" "outD" "lego-ev3-m-motor"
    [DirEnt.mk "motor0" (some "outB\n") (some "x\n"), DirEnt.mk "junk" none none]
    (by decide) (by decide)

/-- C5 (counterexample): the directory name `motor-5` has the `motor` type
prefix and its suffix `-5` is not a non-negative integer, yet the scan does
not fail: `strconv.Atoi` accepts the sign, so `deviceIDFor` parses it and
returns the negative id -5 with no error. -/
theorem deviceIDFor_negative_id_cx :
    deviceIDFor "motor" "" "d" [DirEnt.mk "motor-5" none (some "d")] = (-5, none) ∧
    (-5 : Int) < 0 := by
  refine ⟨by decide, by decide⟩

/-- C5 (amended): `deviceIDFor` skips any entry whose name lacks the device
type prefix, parses the remaining suffix of a prefix-matching name as a
signed decimal integer, and on a parse failure immediately returns id -1
with a parse error — for every continuation of the listing, so no further
candidate is examined. -/
theorem deviceIDFor_id_parse_amended :
    (∀ (typ port driver : String) (d : DirEnt) (rest : List DirEnt),
      hasPrefixStr d.name typ = false →
      deviceIDFor typ port driver (d :: rest) = deviceIDFor typ port driver rest) ∧
    (∀ (typ port driver : String) (d : DirEnt) (rest : List DirEnt),
      hasPrefixStr d.name typ = true →
      atoi (trimPrefixStr d.name typ) = none →
      deviceIDFor typ port driver (d :: rest) = (-1, some (DevError.parseError d.name))) := by
  constructor
  · intro typ port driver d rest h
    simp [deviceIDFor, h]
  · intro typ port driver d rest h1 h2
    simp [deviceIDFor, h1, h2]

theorem deviceIDFor_id_parse_amended_w :
    deviceIDFor "motor" "outA" "drv"
      [DirEnt.mk "sensor1" none none, DirEnt.mk "motor2" (some "outB\n") none] =
      deviceIDFor "motor" "outA" "drv" [DirEnt.mk "motor2" (some "outB\n") none] ∧
    deviceIDFor "motor" "outA" "drv"
      [DirEnt.mk "motorX" none none, DirEnt.mk "motor3" (some "outA\n") (some "drv\n")] =
      (-1, some (DevError.parseError "motorX")) :=
  ⟨deviceIDFor_id_parse_amended.1 "motor" "outA" "drv" (DirEnt.mk "sensor1" none none)
      [DirEnt.mk "motor2" (some "outB\n") none] (by decide),
   deviceIDFor_id_parse_amended.2 "motor" "outA" "drv" (DirEnt.mk "motorX" none none)
      [DirEnt.mk "motor3" (some "outA\n") (some "drv\n")] (by decide) (by decide)⟩

/-- C6: when the scan reaches a prefix-matching, parsing candidate whose
relevant attribute file read fails — `driver_name` in the empty-port mode;
`address`, or `driver_name` after an address match, in the port mode — the
scan aborts at that candidate with id -1 and a read error, whatever entries
follow it in the listing. -/
theorem deviceIDFor_read_failure_aborts
    (typ port driver : String) (pre post : List DirEnt) (d : DirEnt) (id : Int)
    (hpre : ∀ e ∈ pre, continues typ port driver e)
    (hcand : hasPrefixStr d.name typ = true)
    (hid : atoi (trimPrefixStr d.name typ) = some id)
    (hfail : (port = "" ∧ d.drv = none) ∨
      (port ≠ "" ∧ d.addr = none) ∨
      (port ≠ "" ∧ ∃ ab, d.addr = some ab ∧ chomp ab = port ∧ d.drv = none)) :
    ∃ p, deviceIDFor typ port driver (pre ++ d :: post) =
      (-1, some (DevError.readError p)) := by
  rw [deviceIDFor_append_of_continues typ port driver pre _ hpre]
  rcases hfail with ⟨h1, h2⟩ | ⟨h1, h2⟩ | ⟨h1, ab, h2, h3, h4⟩
  · exact ⟨d.name ++ "/driver_name", by simp [deviceIDFor, hcand, hid, h1, h2]⟩
  · exact ⟨d.name ++ "/address", by simp [deviceIDFor, hcand, hid, h1, h2]⟩
  · exact ⟨d.name ++ "/driver_name", by simp [deviceIDFor, hcand, hid, h1, h2, h3, h4]⟩

theorem deviceIDFor_read_failure_aborts_w :
    ∃ p, deviceIDFor "motor" "outA" "drv"
      [DirEnt.mk "motor1" none none,
       DirEnt.mk "motor2" (some "outA\n") (some "drv\n")] =
      (-1, some (DevError.readError p)) :=
  deviceIDFor_read_failure_aborts "motor" "outA" "drv" []
    [DirEnt.mk "motor2" (some "outA\n") (some "drv\n")] (DirEnt.mk "motor1" none none) 1
    (by decide) (by decide) (by decide) (Or.inr (Or.inl ⟨by decide, rfl⟩))

/-- Embedding of Go `image.Point`: integer pixel coordinates. -/
structure Point where
  x : Int
  y : Int
deriving DecidableEq

/-- Embedding of Go `image.Rectangle`. -/
structure Rectangle where
  min : Point
  max : Point
deriving DecidableEq

/-- Embedding of Go `Rectangle.Dx`. -/
def Rectangle.dx (r : Rectangle) : Int := r.max.x - r.min.x

/-- Embedding of Go `Rectangle.Dy`. -/
def Rectangle.dy (r : Rectangle) : Int := r.max.y - r.min.y

/-- Embedding of Go `image.RGBA`: the pixel buffer (bytes as naturals),
the stride in bytes, and the bounds rectangle. -/
structure RGBA where
  Pix : List Nat
  Stride : Int
  Rect : Rectangle
deriving DecidableEq

/-- Embedding of Go `NewRGBAWith` (lcd.go): builds an `RGBA` surface over
the byte buffer `pix` with the given bounds and stride; a zero stride
defaults to four bytes per pixel times the width, and a buffer shorter
than stride times height is rejected. -/
def NewRGBAWith (pix : List Nat) (r : Rectangle) (stride : Int) : Except String RGBA :=
  let w := r.dx
  let h := r.dy
  let stride := if stride = 0 then 4 * w else stride
  if (pix.length : Int) < stride * h then Except.error "ev3: bad pixel buffer length"
  else Except.ok (RGBA.mk pix stride r)

theorem NewRGBAWith_ok (pix : List Nat) (r : Rectangle) (stride : Int) (img : RGBA)
    (h : NewRGBAWith pix r stride = Except.ok img) :
    img = RGBA.mk pix (if stride = 0 then 4 * r.dx else stride) r ∧
      (if stride = 0 then 4 * r.dx else stride) * r.dy ≤ (pix.length : Int) := by
  unfold NewRGBAWith at h
  by_cases hlt : (pix.length : Int) < (if stride = 0 then 4 * r.dx else stride) * r.dy
  · rw [if_pos hlt] at h
    cases h
  · rw [if_neg hlt] at h
    cases h
    exact ⟨rfl, by omega⟩

/-- C7: for every width, height, stride and pixel buffer, when the buffer
length is smaller than stride times height — with the zero-stride default
of four times the width already applied — `NewRGBAWith` fails with the
buffer-too-small error and returns no image. -/
theorem NewRGBAWith_buffer_too_small (pix : List Nat) (r : Rectangle) (stride : Int)
    (h : (pix.length : Int) < (if stride = 0 then 4 * r.dx else stride) * r.dy) :
    NewRGBAWith pix r stride = Except.error "ev3: bad pixel buffer length" := by
  simp only [NewRGBAWith]
  rw [if_pos h]

theorem NewRGBAWith_buffer_too_small_w :
    NewRGBAWith [0, 0, 0] (Rectangle.mk (Point.mk 0 0) (Point.mk 1 1)) 0 =
      Except.error "ev3: bad pixel buffer length" :=
  NewRGBAWith_buffer_too_small [0, 0, 0] (Rectangle.mk (Point.mk 0 0) (Point.mk 1 1)) 0
    (by decide)

/-- C8: a zero stride argument makes `NewRGBAWith` use four bytes per pixel
times the width as the stride of the constructed image, while a non-zero
stride argument is carried to the image unchanged. -/
theorem NewRGBAWith_stride_default :
    (∀ (pix : List Nat) (r : Rectangle) (img : RGBA),
      NewRGBAWith pix r 0 = Except.ok img → img.Stride = 4 * r.dx) ∧
    (∀ (pix : List Nat) (r : Rectangle) (stride : Int) (img : RGBA),
      stride ≠ 0 → NewRGBAWith pix r stride = Except.ok img → img.Stride = stride) := by
  constructor
  · intro pix r img h
    rw [(NewRGBAWith_ok pix r 0 img h).1]
    simp
  · intro pix r stride img hs h
    rw [(NewRGBAWith_ok pix r stride img h).1]
    simp [hs]

theorem NewRGBAWith_stride_default_w :
    (RGBA.mk [0, 0, 0, 0] 4 (Rectangle.mk (Point.mk 0 0) (Point.mk 1 1))).Stride =
      4 * (Rectangle.mk (Point.mk 0 0) (Point.mk 1 1)).dx ∧
    (RGBA.mk [0, 0, 0, 0, 0, 0] 6 (Rectangle.mk (Point.mk 0 0) (Point.mk 1 1))).Stride = 6 :=
  ⟨NewRGBAWith_stride_default.1 [0, 0, 0, 0] (Rectangle.mk (Point.mk 0 0) (Point.mk 1 1))
      (RGBA.mk [0, 0, 0, 0] 4 (Rectangle.mk (Point.mk 0 0) (Point.mk 1 1))) rfl,
   NewRGBAWith_stride_default.2 [0, 0, 0, 0, 0, 0] (Rectangle.mk (Point.mk 0 0) (Point.mk 1 1)) 6
      (RGBA.mk [0, 0, 0, 0, 0, 0] 6 (Rectangle.mk (Point.mk 0 0) (Point.mk 1 1)))
      (by decide) rfl⟩

/-- C9 (counterexample): `NewRGBAWith` accepts a caller-supplied stride of 1
for a width of 5 with a one-byte buffer — stride times height fits, but the
claimed invariant width ≤ stride / 4 fails on the constructed surface. -/
theorem NewRGBAWith_invariant_cx :
    NewRGBAWith [0] (Rectangle.mk (Point.mk 0 0) (Point.mk 5 1)) 1 =
      Except.ok (RGBA.mk [0] 1 (Rectangle.mk (Point.mk 0 0) (Point.mk 5 1))) ∧
    ¬ (Rectangle.mk (Point.mk 0 0) (Point.mk 5 1)).dx ≤ (1 : Int) / 4 := by
  refine ⟨rfl, by decide⟩

/-- C9 (amended): every surface `NewRGBAWith` constructs satisfies stride
times height at most the buffer length; the width bound width ≤ stride / 4
additionally holds whenever the stride argument was zero, so that the
default stride of four times the width was applied — it is not checked for
caller-supplied non-zero strides. -/
theorem NewRGBAWith_invariant_amended :
    (∀ (pix : List Nat) (r : Rectangle) (stride : Int) (img : RGBA),
      NewRGBAWith pix r stride = Except.ok img →
      img.Stride * r.dy ≤ (pix.length : Int)) ∧
    (∀ (pix : List Nat) (r : Rectangle) (img : RGBA),
      NewRGBAWith pix r 0 = Except.ok img → r.dx ≤ img.Stride / 4) := by
  constructor
  · intro pix r stride img h
    have h2 := NewRGBAWith_ok pix r stride img h
    rw [h2.1]
    exact h2.2
  · intro pix r img h
    rw [(NewRGBAWith_ok pix r 0 img h).1]
    show r.dx ≤ (if (0 : Int) = 0 then 4 * r.dx else 0) / 4
    rw [if_pos rfl, Int.mul_ediv_cancel_left r.dx (by norm_num)]

theorem NewRGBAWith_invariant_amended_w :
    (RGBA.mk [0, 0, 0, 0] 4 (Rectangle.mk (Point.mk 0 0) (Point.mk 1 1))).Stride *
        (Rectangle.mk (Point.mk 0 0) (Point.mk 1 1)).dy ≤
      (([0, 0, 0, 0] : List Nat).length : Int) ∧
    (Rectangle.mk (Point.mk 0 0) (Point.mk 1 1)).dx ≤
      (RGBA.mk [0, 0, 0, 0] 4 (Rectangle.mk (Point.mk 0 0) (Point.mk 1 1))).Stride / 4 :=
  ⟨NewRGBAWith_invariant_amended.1 [0, 0, 0, 0] (Rectangle.mk (Point.mk 0 0) (Point.mk 1 1)) 0
      (RGBA.mk [0, 0, 0, 0] 4 (Rectangle.mk (Point.mk 0 0) (Point.mk 1 1))) rfl,
   NewRGBAWith_invariant_amended.2 [0, 0, 0, 0] (Rectangle.mk (Point.mk 0 0) (Point.mk 1 1))
      (RGBA.mk [0, 0, 0, 0] 4 (Rectangle.mk (Point.mk 0 0) (Point.mk 1 1))) rfl⟩

/-- The two values of the one-bit LCD color model (`Pixel` in the Go
package, exercised by lcd_test.go). -/
inductive Pixel where
  | black
  | white
deriving DecidableEq

/-- The Go `Black` pixel value. -/
def Black : Pixel := Pixel.black

/-- The Go `White` pixel value. -/
def White : Pixel := Pixel.white

/-- Modelled from the spec: the monochrome conversion behind
`MonochromeModel.Convert` is not among the provided sources (lcd_test.go
only exercises it), so it is reconstructed from the spec's description — a
deterministic, green-channel-dominant brightness heuristic on an RGB
triple, thresholded to Black or White. The 8-bit channels are widened to
16 bits as Go's `color.RGBA.RGBA` does (multiplying by 0x101) and combined
with the standard luminance weights used by Go's image/color package,
thresholded at mid-scale. The model reproduces every row of the
`pixelTests` table in lcd_test.go. -/
def toMonochrome (r g b : Nat) : Pixel :=
  let r16 := r * 257
  let g16 := g * 257
  let b16 := b * 257
  let y := (19595 * r16 + 38470 * g16 + 7471 * b16 + 32768) / 16777216
  if y < 128 then Pixel.black else Pixel.white

set_option maxRecDepth 8192

/-- C10: monochrome conversion is a deterministic pure function from an
RGB triple to exactly one of Black or White; it reproduces the fixed
`pixelTests` table of lcd_test.go (in particular pure green 255 maps to
White while red 255 and half green 128 map to Black); and on the pure
green axis there is a single threshold (218 in the 8-bit scale): green at
or above it maps to White, below it to Black. -/
theorem toMonochrome_spec :
    (∀ r g b r2 g2 b2 : Nat, r = r2 → g = g2 → b = b2 →
      toMonochrome r g b = toMonochrome r2 g2 b2) ∧
    (∀ r g b : Nat, toMonochrome r g b = Black ∨ toMonochrome r g b = White) ∧
    (toMonochrome 255 0 0 = Black ∧ toMonochrome 128 0 0 = Black ∧
      toMonochrome 0 255 0 = White ∧ toMonochrome 0 128 0 = Black ∧
      toMonochrome 0 0 255 = Black ∧ toMonochrome 0 0 128 = Black ∧
      toMonochrome 0 0 0 = Black ∧ toMonochrome 5 10 11 = Black ∧
      toMonochrome 14 33 38 = Black ∧ toMonochrome 90 218 255 = White) ∧
    (∀ g : Nat, g ≤ 255 → (toMonochrome 0 g 0 = White ↔ 218 ≤ g)) := by
  refine ⟨?_, ?_, by decide, by decide⟩
  · intro r g b r2 g2 b2 h1 h2 h3
    rw [h1, h2, h3]
  · intro r g b
    dsimp only [toMonochrome]
    split
    · exact Or.inl rfl
    · exact Or.inr rfl

theorem toMonochrome_spec_w :
    toMonochrome 1 2 3 = toMonochrome 1 2 3 ∧
    (toMonochrome 7 7 7 = Black ∨ toMonochrome 7 7 7 = White) ∧
    (toMonochrome 0 217 0 = White ↔ 218 ≤ 217) :=
  ⟨toMonochrome_spec.1 1 2 3 1 2 3 rfl rfl rfl,
   toMonochrome_spec.2.1 7 7 7,
   toMonochrome_spec.2.2.2 217 (by decide)⟩

end Ev3
